import Mathlib

/-
Verification of the companion-module-haivision-connectdvr repository.

The repository contains several evolutionary versions of the same Companion
instance module.  The newest version (src/unnamed/part_002, using
@companion-module/base) provides the channel/player state store, the seek-time
resolution, the liveness predicate, the cuepoint store and the command
dispatcher that most claims cite; the request-library version
(src/unnamed/part_003) provides the session manager with in-flight login
tracking (_login_request) cited by the session-lifecycle claims.

Conventions of the shallow embedding:
  - JS numbers that stay numeric are modelled as rationals (ℚ);
    JS NaN (from unparsable text) is a separate constructor of JsNum.
  - Timestamps (new Date arithmetic) are rationals counting milliseconds.
  - JS objects used as string-keyed maps are association lists with
    first-hit lookup and overwrite-on-insert.
  - Absent object fields are Option.none.
  - Network and socket side effects are reified as values in effect lists.
-/

/-! ## Time and format utilities (part_002 lines 609-631, identical in part_003) -/

/-- JS value for the parsed initial-time argument produced by _toSeconds:
either the preserved empty-string sentinel, an integer number of seconds,
or NaN (parseInt failed). -/
inductive ParsedTime where
  | empty : ParsedTime
  | num : Int → ParsedTime
  | nan : ParsedTime
deriving DecidableEq, Repr

/-- Numeric value of one decimal digit character. -/
def digitVal (c : Char) : Nat := c.toNat - 48

/-- Base-10 value of a list of decimal digit characters. -/
def digitsToNat (l : List Char) : Nat := l.foldl (fun a c => a * 10 + digitVal c) 0

/-- Leading-digit prefix parse, modelling the core of JS parseInt on a decimal
string: take leading digit characters, NaN (none) if there are none. -/
def parseNatPrefix (l : List Char) : Option Nat :=
  let ds := l.takeWhile (fun c => c.isDigit)
  if ds = [] then none else some (digitsToNat ds)

/-- Model of JS parseInt restricted to the decimal strings this module passes
to it: an optional leading minus sign followed by a digit prefix; none models
NaN. -/
def parseIntJS : List Char → Option Int
  | [] => none
  | c :: cs =>
    if c = '-' then (parseNatPrefix cs).map (fun n => -(n : Int))
    else (parseNatPrefix (c :: cs)).map (fun n => (n : Int))

/-- Model of String.prototype.split(":") on the character list of the input. -/
def splitOnColon : List Char → List (List Char)
  | [] => [[]]
  | c :: cs =>
    let r := splitOnColon cs
    if c = ':' then [] :: r
    else (c :: r.headD []) :: r.tail

/-- Embedding of _toSeconds (part_002 lines 615-631): the empty string is
returned unchanged as a sentinel; otherwise the string is split on colons,
reversed, and combined right-to-left as seconds, +minutes*60, +hours*3600
(the JS switch falls through from the 3-part case to the 2-part case); any
NaN component makes the whole result NaN.  Lists of 4 or more parts hit no
switch case, so only the last segment counts, as in the source. -/
def toSeconds (ft : String) : ParsedTime :=
  if ft = "" then ParsedTime.empty
  else
    let parts := (splitOnColon ft.data).reverse
    match parseIntJS (parts.headD []) with
    | none => ParsedTime.nan
    | some t0 =>
      if parts.length = 3 then
        match parseIntJS (parts.getD 2 []), parseIntJS (parts.getD 1 []) with
        | some hh, some mm => ParsedTime.num (t0 + hh * 3600 + mm * 60)
        | _, _ => ParsedTime.nan
      else if parts.length = 2 then
        match parseIntJS (parts.getD 1 []) with
        | some mm => ParsedTime.num (t0 + mm * 60)
        | _ => ParsedTime.nan
      else ParsedTime.num t0

/-- Decimal digit character of n mod 10. -/
def digChar (n : Nat) : Char := Char.ofNat (48 + n % 10)

/-- Two-digit zero-padded decimal field, as produced for each component of
Date.prototype.toISOString. -/
def pad2 (n : Nat) : String := String.mk [digChar (n / 10), digChar (n % 10)]

/-- An HH:MM:SS string assembled from its three numeric components. -/
def hmsString (h m s : Nat) : String :=
  pad2 h ++ ":" ++ pad2 m ++ ":" ++ pad2 s

/-- Embedding of _userFriendlyTime (part_002 lines 609-613) on the integer
second counts the claims concern: new Date(1000*seconds).toISOString()
.substr(11, 8) is the zero-padded UTC time of day of the given number of
seconds since the epoch. -/
def userFriendlyTime (i : Int) : String :=
  let t : Nat := (i % 86400).toNat
  hmsString (t / 3600) (t % 3600 / 60) (t % 60)

theorem splitOnColon_no_colon (l : List Char) (h : ':' ∉ l) : splitOnColon l = [l] := by
  induction l with
  | nil => rfl
  | cons c cs ih =>
    have hc : c ≠ ':' := fun hcc => h (hcc ▸ List.mem_cons_self c cs)
    have hcs : ':' ∉ cs := fun hm => h (List.mem_cons_of_mem c hm)
    simp [splitOnColon, hc, ih hcs]

theorem splitOnColon_append (a b : List Char) (h : ':' ∉ a) :
    splitOnColon (a ++ ':' :: b) = a :: splitOnColon b := by
  induction a with
  | nil => simp [splitOnColon]
  | cons c cs ih =>
    have hc : c ≠ ':' := fun hcc => h (hcc ▸ List.mem_cons_self c cs)
    have hcs : ':' ∉ cs := fun hm => h (List.mem_cons_of_mem c hm)
    have hne : splitOnColon (cs ++ ':' :: b) = cs :: splitOnColon b := ih hcs
    simp [splitOnColon, hc, hne]

theorem digChar_eq_mod (n : Nat) : digChar n = digChar (n % 10) := by
  unfold digChar
  rw [Nat.mod_mod_of_dvd n (by norm_num)]

theorem digChar_ne_colon (n : Nat) : digChar n ≠ ':' := by
  rw [digChar_eq_mod]
  exact (by decide : ∀ k : Nat, k < 10 → digChar k ≠ ':') (n % 10) (Nat.mod_lt n (by norm_num))

theorem isDigit_digChar (n : Nat) : (digChar n).isDigit = true := by
  rw [digChar_eq_mod]
  exact (by decide : ∀ k : Nat, k < 10 → (digChar k).isDigit = true) (n % 10)
    (Nat.mod_lt n (by norm_num))

theorem digitVal_digChar : ∀ n : Nat, n < 10 → digitVal (digChar n) = n := by
  decide

theorem ne_minus_of_isDigit (c : Char) (h : c.isDigit = true) : c ≠ '-' := by
  intro hc
  subst hc
  exact absurd h (by decide)

theorem takeWhile_isDigit_all (l : List Char) (h : ∀ c ∈ l, c.isDigit = true) :
    l.takeWhile (fun c => c.isDigit) = l := by
  induction l with
  | nil => rfl
  | cons c cs ih =>
    have hc : c.isDigit = true := h c (List.mem_cons_self c cs)
    simp only [List.takeWhile_cons, hc, if_true]
    rw [ih (fun d hd => h d (List.mem_cons_of_mem c hd))]

theorem parseIntJS_digits (l : List Char) (hne : l ≠ [])
    (h : ∀ c ∈ l, c.isDigit = true) :
    parseIntJS l = some ((digitsToNat l : Nat) : Int) := by
  cases l with
  | nil => exact absurd rfl hne
  | cons c cs =>
    have hc : c.isDigit = true := h c (List.mem_cons_self c cs)
    have hcm : c ≠ '-' := ne_minus_of_isDigit c hc
    simp only [parseIntJS, hcm, if_false]
    unfold parseNatPrefix
    rw [takeWhile_isDigit_all (c :: cs) h]
    simp

theorem string_data_append (a b : String) : (a ++ b).data = a.data ++ b.data := rfl

theorem pad2_data (n : Nat) : (pad2 n).data = [digChar (n / 10), digChar (n % 10)] := rfl

theorem pad2_digits (n : Nat) : ∀ c ∈ (pad2 n).data, c.isDigit = true := by
  rw [pad2_data]
  intro c hc
  simp only [List.mem_cons, List.not_mem_nil, or_false] at hc
  rcases hc with rfl | rfl
  case _ => exact isDigit_digChar (n / 10)
  case _ => exact isDigit_digChar (n % 10)

theorem pad2_no_colon (n : Nat) : ':' ∉ (pad2 n).data := by
  intro h
  have hd := pad2_digits n ':' h
  exact absurd hd (by decide)

theorem digitsToNat_pad2 (n : Nat) (h : n < 100) : digitsToNat (pad2 n).data = n := by
  rw [pad2_data]
  have h1 : n / 10 < 10 := by omega
  have h2 : n % 10 < 10 := by omega
  simp only [digitsToNat, List.foldl]
  rw [digitVal_digChar (n / 10) h1, digitVal_digChar (n % 10) h2]
  omega

theorem parseIntJS_pad2 (n : Nat) (h : n < 100) :
    parseIntJS (pad2 n).data = some ((n : Nat) : Int) := by
  rw [parseIntJS_digits (pad2 n).data (by rw [pad2_data]; simp) (pad2_digits n)]
  rw [digitsToNat_pad2 n h]

theorem hmsString_data (h m s : Nat) :
    (hmsString h m s).data =
      (pad2 h).data ++ ':' :: ((pad2 m).data ++ ':' :: (pad2 s).data) := by
  unfold hmsString
  simp only [string_data_append]
  rfl

theorem hmsString_parts (h m s : Nat) :
    (splitOnColon (hmsString h m s).data).reverse =
      [(pad2 s).data, (pad2 m).data, (pad2 h).data] := by
  rw [hmsString_data]
  rw [splitOnColon_append _ _ (pad2_no_colon h)]
  rw [splitOnColon_append _ _ (pad2_no_colon m)]
  rw [splitOnColon_no_colon _ (pad2_no_colon s)]
  rfl

theorem hmsString_ne_empty (h m s : Nat) : hmsString h m s ≠ "" := by
  intro he
  have hd := congrArg String.data he
  rw [hmsString_data] at hd
  have : (pad2 h).data = [digChar (h / 10), digChar (h % 10)] := pad2_data h
  rw [this] at hd
  simp at hd

theorem toSeconds_hmsString (h m s : Nat) (hh : h < 100) (hm2 : m < 100) (hs : s < 100) :
    toSeconds (hmsString h m s) =
      ParsedTime.num ((s : Int) + (h : Int) * 3600 + (m : Int) * 60) := by
  have hne := hmsString_ne_empty h m s
  simp only [toSeconds, hne, if_false, hmsString_parts h m s]
  simp only [List.headD, List.getD, List.length, List.get?, Option.getD]
  rw [parseIntJS_pad2 s hs, parseIntJS_pad2 h hh, parseIntJS_pad2 m hm2]
  simp

theorem userFriendlyTime_hms (h m s : Nat) (hh : h < 24) (hm2 : m < 60) (hs : s < 60) :
    userFriendlyTime ((h * 3600 + m * 60 + s : Nat) : Int) = hmsString h m s := by
  unfold userFriendlyTime
  have hlt : (h * 3600 + m * 60 + s : Nat) < 86400 := by omega
  have h0 : (0 : Int) ≤ ((h * 3600 + m * 60 + s : Nat) : Int) := Int.natCast_nonneg _
  have hb : ((h * 3600 + m * 60 + s : Nat) : Int) < 86400 := by exact_mod_cast hlt
  rw [Int.emod_eq_of_lt h0 hb, Int.toNat_natCast]
  have e1 : (h * 3600 + m * 60 + s) / 3600 = h := by omega
  have e2 : (h * 3600 + m * 60 + s) % 3600 / 60 = m := by omega
  have e3 : (h * 3600 + m * 60 + s) % 60 = s := by omega
  simp only [e1, e2, e3]

/-! ## Channel/player state store and command dispatcher (src/unnamed/part_002) -/

/-- A JS number value: either an actual number (rational) or NaN. -/
inductive JsNum where
  | num : ℚ → JsNum
  | nan : JsNum
deriving DecidableEq, Repr

/-- Initial-time argument as load_channel and _get_new_init_time receive it:
the empty-string sentinel, a number, or NaN. -/
inductive TimeArg where
  | emptyStr : TimeArg
  | num : ℚ → TimeArg
  | nan : TimeArg
deriving DecidableEq, Repr

/-- Bridge from the _toSeconds result to the argument the action callback
passes to load_channel. -/
def parsedToArg : ParsedTime → TimeArg
  | ParsedTime.empty => TimeArg.emptyStr
  | ParsedTime.num i => TimeArg.num (i : ℚ)
  | ParsedTime.nan => TimeArg.nan

/-- The JS strict greater-than on a possibly-NaN left operand: NaN compares
false. -/
def jsGt : JsNum → ℚ → Bool
  | JsNum.num a, b => decide (b < a)
  | JsNum.nan, _ => false

/-- A channel record as stored in this.channels, keeping the fields the
module reads: device-reported duration (seconds), the locally stamped
last_duration_change timestamp (milliseconds, absent until the first
duration change is observed), the cloud_duration field, and whether the
device reported an error with a message (the part_002 validity check reads
error?.message). -/
structure Channel where
  duration : ℚ
  last_duration_change : Option ℚ
  cloud_duration : Option ℚ
  hasError : Bool
deriving DecidableEq, Repr

/-- A model:delta payload for a channel: fields absent from the payload are
none.  Other device fields are not read by the module and are omitted. -/
structure ChannelDelta where
  duration : Option ℚ
  cloud_duration : Option ℚ
deriving DecidableEq, Repr

/-- The player_status record (all fields optional, merged field-wise). -/
structure PlayerStatus where
  playing : Option Bool
  time : Option JsNum
  active_channel_id : Option String
  image_primary : Option String
deriving DecidableEq, Repr

/-- A stored cuepoint: channel id, elapsed time and cached preview image at
the moment set_cuepoint ran. -/
structure Cuepoint where
  channel : String
  time : JsNum
  image : Option Nat
deriving DecidableEq, Repr

/-- First-hit lookup in a string-keyed association list (JS object read). -/
def alookup {α : Type} (k : String) : List (String × α) → Option α
  | [] => none
  | (k2, v) :: rest => if k = k2 then some v else alookup k rest

/-- JS object property write: the new binding shadows and removes any old
binding for the same key. -/
def ainsert {α : Type} (k : String) (v : α) (l : List (String × α)) : List (String × α) :=
  (k, v) :: l.filter (fun p => p.1 ≠ k)

/-- The mutable instance state of the part_002 module that the claims
concern.  socket models whether this.socket is defined; image_refresh
models a pending preview-refresh timer; reconnecting holds the delay in
seconds of the pending retry timer, if any. -/
structure InstState where
  channels : List (String × Channel)
  player_status : PlayerStatus
  cur_channel : Option String
  cur_time : Option JsNum
  session_id : Option String
  cuepoints : List (String × Cuepoint)
  image : Option Nat
  image_refresh : Bool
  socket : Bool
  reconnecting : Option ℚ
deriving DecidableEq, Repr

/-- MIN_BUFFER_TIME constant (seconds). -/
def MIN_BUFFER_TIME : ℚ := 25

/-- RECONNECT_TIMEOUT constant of part_002/part_003 (seconds). -/
def RECONNECT_TIMEOUT : ℚ := 10

/-- REBOOT_WAIT_TIME constant (seconds). -/
def REBOOT_WAIT_TIME : ℚ := 210

/-- Embedding of _is_valid_channel (part_002 lines 539-545): the id must be
present and error?.message must be nullish. -/
def _is_valid_channel (st : InstState) (id : String) : Bool :=
  match alookup id st.channels with
  | some ch => !ch.hasError
  | none => false

/-- Embedding of is_live (part_002 lines 592-601): a valid channel is live
iff it carries a last_duration_change stamp at most 15000 milliseconds
before now. -/
def is_live (st : InstState) (now : ℚ) (id : String) : Bool :=
  _is_valid_channel st id &&
    match alookup id st.channels with
    | some ch =>
      match ch.last_duration_change with
      | some ldc => decide (now - ldc ≤ 15000)
      | none => false
    | none => false

/-- Embedding of the channel merge in _channel_updates (part_002 lines
128-146): params fields overwrite stored ones, and last_duration_change is
stamped with now exactly when params carries a duration different from the
stored one. -/
def mergeChannel (ch : Channel) (p : ChannelDelta) (now : ℚ) : Channel :=
  { duration := match p.duration with | some d => d | none => ch.duration,
    last_duration_change :=
      match p.duration with
      | some d => if d ≠ ch.duration then some now else ch.last_duration_change
      | none => ch.last_duration_change,
    cloud_duration := match p.cloud_duration with | some c => some c | none => ch.cloud_duration,
    hasError := ch.hasError }

/-- State effect of _channel_updates: only called by the model:delta
dispatcher when the id is a key of this.channels. -/
def _channel_updates (st : InstState) (now : ℚ) (id : String) (p : ChannelDelta) : InstState :=
  match alookup id st.channels with
  | some ch => { st with channels := ainsert id (mergeChannel ch p now) st.channels }
  | none => st

/-- Embedding of the player merge in _player_updates (part_002 lines
154-171): field-wise overwrite of player_status, plus the cur_time and
cur_channel derived-pointer updates. -/
def _player_updates (st : InstState) (args : Option PlayerStatus) : InstState :=
  match args with
  | none => st
  | some p =>
    let merged : PlayerStatus :=
      { playing := match p.playing with | some b => some b | none => st.player_status.playing,
        time := match p.time with | some t => some t | none => st.player_status.time,
        active_channel_id := match p.active_channel_id with
          | some a => some a
          | none => st.player_status.active_channel_id,
        image_primary := match p.image_primary with
          | some i => some i
          | none => st.player_status.image_primary }
    let st1 := { st with player_status := merged }
    let st2 := match p.time with | some t => { st1 with cur_time := some t } | none => st1
    match p.active_channel_id with
    | some a => { st2 with cur_channel := some a }
    | none => st2

/-- Embedding of _set_cur_time on an already-numeric argument (parseFloat of
a number is the number itself, of NaN stays NaN). -/
def _set_cur_time (st : InstState) (v : JsNum) : InstState :=
  { st with cur_time := some v }

/-- Embedding of set_live_channel. -/
def set_live_channel (st : InstState) (id : String) : InstState :=
  { st with cur_channel := some id }

/-- The pure seek-time resolution at the heart of _get_new_init_time
(part_002 lines 640-657, identical in part_003 and src/index.js): an empty
requested time becomes 0 when the channel is not live and the channel
duration when it is; then any time strictly beyond duration -
MIN_BUFFER_TIME is pulled back to that boundary, floored at 0. -/
def resolveInitTime (duration : ℚ) (live : Bool) (t : TimeArg) : JsNum :=
  let t1 : JsNum := match t with
    | TimeArg.emptyStr => if live then JsNum.num duration else JsNum.num 0
    | TimeArg.num q => JsNum.num q
    | TimeArg.nan => JsNum.nan
  if jsGt t1 (duration - MIN_BUFFER_TIME) then
    if duration - MIN_BUFFER_TIME ≤ 0 then JsNum.num 0
    else JsNum.num (duration - MIN_BUFFER_TIME)
  else t1

/-- Embedding of _get_new_init_time: resolves the requested time against the
channel record, stores the result as the new cur_time, and returns it.  Its
only caller load_channel has already validated the channel id, so the
missing-channel branch is inert. -/
def _get_new_init_time (st : InstState) (now : ℚ) (id : String) (t : TimeArg) :
    JsNum × InstState :=
  match alookup id st.channels with
  | some ch =>
    let v := resolveInitTime ch.duration (is_live st now id) t
    (v, _set_cur_time st v)
  | none => (JsNum.nan, st)

/-- A socket.io command emission from the part_002 dispatcher. -/
inductive Emission where
  | loadChannel : String → JsNum → Emission
  | togglePlayState : Emission
deriving DecidableEq, Repr

/-- Embedding of load_channel (part_002 lines 566-584): refuse without a
socket, refuse an invalid channel; otherwise resolve the start time, emit
the playback:loadChannel command and optimistically set the live channel. -/
def load_channel (st : InstState) (now : ℚ) (id : String) (t : TimeArg) :
    Bool × List Emission × InstState :=
  if st.socket = false then (false, [], st)
  else if _is_valid_channel st id = false then (false, [], st)
  else
    let r := _get_new_init_time st now id t
    (true, [Emission.loadChannel id r.1], set_live_channel r.2 id)

/-- JS truthiness of the optional cur_channel string: null and the empty
string are falsy. -/
def truthyStr : Option String → Bool
  | some s => s ≠ ""
  | none => false

/-- JS truthiness of the optional cur_time number: null, 0 and NaN are
falsy. -/
def truthyTime : Option JsNum → Bool
  | some (JsNum.num q) => q ≠ 0
  | some JsNum.nan => false
  | none => false

/-- Embedding of is_currently_active (part_002 lines 665-670): both
cur_channel and cur_time must be JS-truthy. -/
def is_currently_active (st : InstState) : Bool :=
  truthyStr st.cur_channel && truthyTime st.cur_time

/-- Embedding of set_cuepoint (part_002 lines 725-741): refuse without an
active channel; otherwise overwrite the slot with the current channel, time
and cached image. -/
def set_cuepoint (st : InstState) (slot : String) : InstState :=
  if is_currently_active st then
    let cp : Cuepoint :=
      { channel := st.cur_channel.getD "",
        time := st.cur_time.getD (JsNum.num 0),
        image := st.image }
    { st with cuepoints := ainsert slot cp st.cuepoints }
  else st

/-- The data:init snapshot payload: the player block plus the channel list
with each channel's record (data.channel ids paired with data[id]). -/
structure Snapshot where
  player : PlayerStatus
  channels : List (String × Channel)
deriving DecidableEq, Repr

/-- Embedding of device_init (part_002 lines 278-294): reset the channel
map from the snapshot, replace player_status wholesale, and refresh the
cur_channel / cur_time pointers from the snapshot's player block. -/
def device_init (st : InstState) (data : Snapshot) : InstState :=
  let st1 := { st with channels := data.channels, player_status := data.player }
  let st2 := match data.player.active_channel_id with
    | some a => set_live_channel st1 a
    | none => st1
  match data.player.time with
  | some t => _set_cur_time st2 t
  | none => st2

/-- Embedding of _endConnection (part_002 lines 1002-1011): cancel the
pending image-refresh timer and close/forget the socket. -/
def _endConnection (st : InstState) : InstState :=
  { st with image_refresh := false, socket := false }

/-- Embedding of keep_login_retry (part_002 lines 213-220): a no-op while a
retry timer is already pending, otherwise arm the single timer slot with
the given delay. -/
def keep_login_retry2 (timeout : ℚ) (st : InstState) : InstState :=
  if st.reconnecting.isSome then st
  else { st with reconnecting := some timeout }

/-- Embedding of _stopOldLogin (part_002 lines 222-227): clear the pending
retry timer. -/
def _stopOldLogin2 (st : InstState) : InstState :=
  { st with reconnecting := none }

/-- State effect of starting login in part_002 (lines 235-270): the old
retry timer is cleared before the credentialed POST goes out; the response
handling is asynchronous and outside this state step. -/
def login2 (st : InstState) : InstState :=
  _stopOldLogin2 st

/-- Embedding of _reconnect (part_002 lines 194-205): tear the connection
down, then either log in again immediately (server-pushed logout) or arm
the retry timer with RECONNECT_TIMEOUT.  The error argument only feeds the
log line. -/
def _reconnect2 (retryImmediately : Bool) (st : InstState) : InstState :=
  let st1 := _endConnection st
  if retryImmediately then login2 st1
  else keep_login_retry2 RECONNECT_TIMEOUT st1

/-- An HTTP request issued by the part_002 session manager. -/
inductive HttpReq where
  | postLogin : HttpReq
  | deleteSession : HttpReq
  | putReboot : HttpReq
deriving DecidableEq, Repr

/-- Embedding of logout (part_002 lines 975-997): tear the connection down,
return if no token is held, otherwise issue the session DELETE and clear
the token. -/
def logout2 (st : InstState) : InstState × List HttpReq :=
  let st1 := _endConnection st
  match st1.session_id with
  | none => (st1, [])
  | some _ => ({ st1 with session_id := none }, [HttpReq.deleteSession])

/-- Embedding of destroy (part_002 lines 1017-1020): stop any old login
retry then log out. -/
def destroy2 (st : InstState) : InstState × List HttpReq :=
  logout2 (_stopOldLogin2 st)

/-- Embedding of reboot (part_002 lines 695-717): refuse (with only a
logged warning from _isConnected) when no socket exists; otherwise issue
the reboot PUT, tear the connection down, clear the token, and arm the
retry timer with the long REBOOT_WAIT_TIME. -/
def reboot2 (st : InstState) : InstState × List HttpReq :=
  if st.socket = false then (st, [])
  else
    let st1 := _endConnection st
    let st2 := { st1 with session_id := none }
    (keep_login_retry2 REBOOT_WAIT_TIME st2, [HttpReq.putReboot])

/-! ## Session manager with in-flight login tracking (src/unnamed/part_003) -/

/-- A reified side effect of the part_003 session manager. -/
inductive SMEffect where
  | closeSocket : SMEffect
  | clearTimer : Nat → SMEffect
  | abortLogin : Nat → SMEffect
  | setTimer : Nat → ℚ → SMEffect
  | httpPostLogin : Nat → SMEffect
  | httpDeleteSession : SMEffect
  | httpPutReboot : SMEffect
deriving DecidableEq, Repr

/-- The session-manager state of part_003.  reconnecting holds the stored
setTimeout handle, login_request the tracked in-flight request id;
pending_timers lists the armed-but-unfired timers (handle and delay in
seconds), inflight the issued, unaborted, unanswered login requests paired
with the retry flag their callbacks closed over.  next_id supplies fresh
handles/ids.  The request library never invokes the callback of an aborted
request, so aborting removes the entry from inflight for good. -/
structure SMState where
  reconnecting : Option Nat
  login_request : Option Nat
  pending_timers : List (Nat × ℚ)
  inflight : List (Nat × Bool)
  next_id : Nat
  socket : Bool
  image_refresh : Bool
  session_id : Option Nat
deriving DecidableEq, Repr

/-- The freshly constructed part_003 instance state. -/
def init3 : SMState :=
  { reconnecting := none, login_request := none, pending_timers := [],
    inflight := [], next_id := 0, socket := false, image_refresh := false,
    session_id := none }

/-- Embedding of _endConnection (part_003 lines 1056-1065). -/
def endConnection3 (s : SMState) : SMState × List SMEffect :=
  let s1 := { s with image_refresh := false }
  if s1.socket then ({ s1 with socket := false }, [SMEffect.closeSocket])
  else (s1, [])

/-- Embedding of _stopOldLogin (part_003 lines 254-263): clear the pending
retry timer if any, then abort and forget the in-flight login request if
any. -/
def stopOldLogin3 (s : SMState) : SMState × List SMEffect :=
  match s.reconnecting, s.login_request with
  | some t, some r =>
    ({ s with
        reconnecting := none
        login_request := none
        pending_timers := s.pending_timers.filter (fun p => p.1 != t)
        inflight := s.inflight.filter (fun p => p.1 != r) },
     [SMEffect.clearTimer t, SMEffect.abortLogin r])
  | some t, none =>
    ({ s with
        reconnecting := none
        pending_timers := s.pending_timers.filter (fun p => p.1 != t) },
     [SMEffect.clearTimer t])
  | none, some r =>
    ({ s with
        login_request := none
        inflight := s.inflight.filter (fun p => p.1 != r) },
     [SMEffect.abortLogin r])
  | none, none => (s, [])

/-- Embedding of keep_login_retry (part_003 lines 245-252): return if a
retry timer is already tracked, otherwise arm one with the given delay. -/
def keepLoginRetry3 (secs : ℚ) (s : SMState) : SMState × List SMEffect :=
  if s.reconnecting.isSome then (s, [])
  else
    ({ s with
        reconnecting := some s.next_id
        pending_timers := (s.next_id, secs) :: s.pending_timers
        next_id := s.next_id + 1 },
     [SMEffect.setTimer s.next_id secs])

/-- Embedding of login (part_003 lines 271-304): stop old timer and
request, then issue a fresh credentialed POST whose callback closes over
the retry flag. -/
def login3 (retry : Bool) (s : SMState) : SMState × List SMEffect :=
  let s1 := (stopOldLogin3 s).1
  ({ s1 with
      login_request := some s1.next_id
      inflight := (s1.next_id, retry) :: s1.inflight
      next_id := s1.next_id + 1 },
   (stopOldLogin3 s).2 ++ [SMEffect.httpPostLogin s1.next_id])

/-- The single positional argument part_003's _reconnect receives:
undefined, the bound literal true (logout handler), or the error object the
socket.io client passes to connect_error handlers. -/
inductive JsArg where
  | undefined : JsArg
  | boolTrue : JsArg
  | errObj : String → JsArg
deriving DecidableEq, Repr

/-- JS truthiness of that argument: Error objects are truthy. -/
def jsTruthy : JsArg → Bool
  | JsArg.undefined => false
  | JsArg.boolTrue => true
  | JsArg.errObj _ => true

/-- The argument _reconnect receives for a connect_error event in part_003
(line 141): the handler is bound with no leading arguments, so the error
object itself lands in the retry_immediately parameter. -/
def connectErrorArg3 (msg : String) : JsArg := JsArg.errObj msg

/-- The argument _reconnect receives for a server-pushed logout event in
part_003 (line 142): the handler is bound with the literal true. -/
def logoutArg3 : JsArg := JsArg.boolTrue

/-- Embedding of _reconnect (part_003 lines 225-237): tear the connection
down, then log in immediately when the received argument is truthy and
otherwise arm the RECONNECT_TIMEOUT retry timer. -/
def reconnect3 (arg : JsArg) (s : SMState) : SMState × List SMEffect :=
  let r1 := endConnection3 s
  if jsTruthy arg then
    let r2 := login3 true r1.1
    (r2.1, r1.2 ++ r2.2)
  else
    let r2 := keepLoginRetry3 RECONNECT_TIMEOUT r1.1
    (r2.1, r1.2 ++ r2.2)

/-- A pending retry timer fires: it leaves the pending set and its handler
runs login(true).  Firing an unknown handle is a no-op. -/
def timerFire3 (t : Nat) (s : SMState) : SMState × List SMEffect :=
  if s.pending_timers.any (fun p => p.1 == t) then
    login3 true { s with pending_timers := s.pending_timers.filter (fun p => p.1 != t) }
  else (s, [])

/-- The 200 response of login request r arrives (only possible while r is
still inflight: the request library silences aborted requests).  The
callback returns early if _login_request was already nulled; otherwise it
nulls it, stores the session token and opens the socket (initSocket). -/
def respOk3 (r : Nat) (sid : Nat) (s : SMState) : SMState × List SMEffect :=
  if s.inflight.any (fun p => p.1 == r) then
    let s1 := { s with inflight := s.inflight.filter (fun p => p.1 != r) }
    match s1.login_request with
    | none => (s1, [])
    | some _ =>
      ({ s1 with login_request := none, session_id := some sid, socket := true }, [])
  else (s, [])

/-- An error/timeout response of login request r arrives.  The callback
returns early if _login_request was already nulled; otherwise it nulls it
and, when its closed-over retry flag is set, arms the RECONNECT_TIMEOUT
retry timer. -/
def respErr3 (r : Nat) (s : SMState) : SMState × List SMEffect :=
  if s.inflight.any (fun p => p.1 == r) then
    let retryFlag := ((s.inflight.find? (fun p => p.1 == r)).map (fun p => p.2)).getD false
    let s1 := { s with inflight := s.inflight.filter (fun p => p.1 != r) }
    match s1.login_request with
    | none => (s1, [])
    | some _ =>
      let s2 := { s1 with login_request := none }
      if retryFlag then keepLoginRetry3 RECONNECT_TIMEOUT s2 else (s2, [])
  else (s, [])

/-- Embedding of logout (part_003 lines 1027-1051): tear the connection
down first, return if no token is held, otherwise issue the fire-and-forget
session DELETE and clear the token synchronously, without waiting for the
response. -/
def logout3 (s : SMState) : SMState × List SMEffect :=
  let r1 := endConnection3 s
  match r1.1.session_id with
  | none => (r1.1, r1.2)
  | some _ => ({ r1.1 with session_id := none }, r1.2 ++ [SMEffect.httpDeleteSession])

/-- The completion handler of the logout DELETE (part_003 lines 1041-1047)
only writes a log line: the state is untouched whether the request errored
or succeeded. -/
def logoutDeleteResponse3 (_errored : Bool) (s : SMState) : SMState := s

/-- Embedding of reboot (part_003 lines 690-712): refuse without a socket;
otherwise issue the reboot PUT, tear the connection down, clear the token
and arm the long REBOOT_WAIT_TIME retry timer. -/
def reboot3 (s : SMState) : SMState × List SMEffect :=
  if s.socket = false then (s, [])
  else
    let r1 := endConnection3 s
    let s2 := { r1.1 with session_id := none }
    let r3 := keepLoginRetry3 REBOOT_WAIT_TIME s2
    (r3.1, [SMEffect.httpPutReboot] ++ r1.2 ++ r3.2)

/-- Embedding of destroy (part_003 lines 1071-1074). -/
def destroy3 (s : SMState) : SMState × List SMEffect :=
  let r1 := stopOldLogin3 s
  let r2 := logout3 r1.1
  (r2.1, r1.2 ++ r2.2)

/-- One event of the part_003 session manager's event loop. -/
inductive SMStep : SMState → SMState → Prop where
  | loginCall (retry : Bool) (s : SMState) : SMStep s (login3 retry s).1
  | socketDisconnect (a : JsArg) (s : SMState) : SMStep s (reconnect3 a s).1
  | timerFires (t : Nat) (s : SMState) : SMStep s (timerFire3 t s).1
  | loginSucceeds (r sid : Nat) (s : SMState) : SMStep s (respOk3 r sid s).1
  | loginFails (r : Nat) (s : SMState) : SMStep s (respErr3 r s).1
  | logoutCall (s : SMState) : SMStep s (logout3 s).1
  | rebootCall (s : SMState) : SMStep s (reboot3 s).1
  | destroyCall (s : SMState) : SMStep s (destroy3 s).1

/-- States of the part_003 session manager reachable from construction. -/
inductive SMReachable : SMState → Prop where
  | init : SMReachable init3
  | step (s s2 : SMState) : SMReachable s → SMStep s s2 → SMReachable s2

/-- The timer/request discipline the reachable states maintain: the tracked
timer handle is the unique pending timer and is fresh; the tracked login
request is the unique inflight request and is fresh; the preview timer is
not armed by any session-manager event; and the token is only ever held
with a socket that was opened for it. -/
def SMInv (s : SMState) : Prop :=
  (∀ t, s.reconnecting = some t → t < s.next_id ∧ ∃ d, s.pending_timers = [(t, d)]) ∧
  (s.reconnecting = none → s.pending_timers = []) ∧
  (∀ r, s.login_request = some r → r < s.next_id ∧ ∃ b, s.inflight = [(r, b)]) ∧
  (s.login_request = none → s.inflight = []) ∧
  s.image_refresh = false ∧
  (s.session_id = none → s.socket = false)

theorem filter_single_self (t : Nat) (d : ℚ) :
    ([(t, d)] : List (Nat × ℚ)).filter (fun p => p.1 != t) = [] := by
  simp

theorem filter_single_self_req (r : Nat) (b : Bool) :
    ([(r, b)] : List (Nat × Bool)).filter (fun p => p.1 != r) = [] := by
  simp

theorem endConnection3_state (s : SMState) :
    (endConnection3 s).1 = { s with image_refresh := false, socket := false } := by
  obtain ⟨rec, lr, pt, infl, nid, sk, ir, sid⟩ := s
  unfold endConnection3
  cases sk <;> simp

theorem endConnection3_effects (s : SMState) :
    (endConnection3 s).2 = if s.socket then [SMEffect.closeSocket] else [] := by
  obtain ⟨rec, lr, pt, infl, nid, sk, ir, sid⟩ := s
  unfold endConnection3
  cases sk <;> simp

theorem stopOldLogin3_state (s : SMState)
    (hp : s.reconnecting = none → s.pending_timers = [])
    (hpt : ∀ t, s.reconnecting = some t →
      s.pending_timers.filter (fun p => p.1 != t) = [])
    (hi : s.login_request = none → s.inflight = [])
    (hit : ∀ r, s.login_request = some r →
      s.inflight.filter (fun p => p.1 != r) = []) :
    (stopOldLogin3 s).1 =
      { s with
          reconnecting := none
          login_request := none
          pending_timers := []
          inflight := [] } := by
  obtain ⟨rec, lr, pt, infl, nid, sk, ir, sid⟩ := s
  have hp2 : rec = none → pt = [] := hp
  have hpt2 : ∀ t, rec = some t → pt.filter (fun p => p.1 != t) = [] := hpt
  have hi2 : lr = none → infl = [] := hi
  have hit2 : ∀ r, lr = some r → infl.filter (fun p => p.1 != r) = [] := hit
  unfold stopOldLogin3
  rcases rec with _ | t <;> rcases lr with _ | r
  case _ => simp [hp2 rfl, hi2 rfl]
  case _ => simp [hp2 rfl, hit2 r rfl]
  case _ => simp [hpt2 t rfl, hi2 rfl]
  case _ => simp [hpt2 t rfl, hit2 r rfl]

theorem login3_state (retry : Bool) (s : SMState)
    (hp : s.reconnecting = none → s.pending_timers = [])
    (hpt : ∀ t, s.reconnecting = some t →
      s.pending_timers.filter (fun p => p.1 != t) = [])
    (hi : s.login_request = none → s.inflight = [])
    (hit : ∀ r, s.login_request = some r →
      s.inflight.filter (fun p => p.1 != r) = []) :
    (login3 retry s).1 =
      { s with
          reconnecting := none
          login_request := some s.next_id
          pending_timers := []
          inflight := [(s.next_id, retry)]
          next_id := s.next_id + 1 } := by
  unfold login3
  rw [stopOldLogin3_state s hp hpt hi hit]

theorem smInv_filter_pending (s : SMState) (h : SMInv s) :
    ∀ t, s.reconnecting = some t → s.pending_timers.filter (fun p => p.1 != t) = [] := by
  intro t ht
  obtain ⟨h1, h2, h3, h4, h5, h6⟩ := h
  obtain ⟨-, d, hd⟩ := h1 t ht
  rw [hd]
  exact filter_single_self t d

theorem smInv_filter_inflight (s : SMState) (h : SMInv s) :
    ∀ r, s.login_request = some r → s.inflight.filter (fun p => p.1 != r) = [] := by
  intro r hr
  obtain ⟨h1, h2, h3, h4, h5, h6⟩ := h
  obtain ⟨-, b, hb⟩ := h3 r hr
  rw [hb]
  exact filter_single_self_req r b

theorem smInv_init3 : SMInv init3 := by
  unfold SMInv init3
  refine ⟨?_, ?_, ?_, ?_, ?_, ?_⟩ <;> simp

theorem smInv_login3_aux (retry : Bool) (s : SMState)
    (hp : s.reconnecting = none → s.pending_timers = [])
    (hpt : ∀ t, s.reconnecting = some t →
      s.pending_timers.filter (fun p => p.1 != t) = [])
    (hi : s.login_request = none → s.inflight = [])
    (hit : ∀ r, s.login_request = some r →
      s.inflight.filter (fun p => p.1 != r) = [])
    (h5 : s.image_refresh = false)
    (h6 : s.session_id = none → s.socket = false) :
    SMInv (login3 retry s).1 := by
  rw [login3_state retry s hp hpt hi hit]
  unfold SMInv
  dsimp only
  refine ⟨?_, ?_, ?_, ?_, ?_, ?_⟩
  case _ => intro t ht; cases ht
  case _ => intro; rfl
  case _ =>
    intro r hr
    simp only [Option.some.injEq] at hr
    subst hr
    exact ⟨Nat.lt_succ_self _, retry, rfl⟩
  case _ => intro hn; cases hn
  case _ => exact h5
  case _ => exact h6

theorem smInv_login3 (retry : Bool) (s : SMState) (h : SMInv s) :
    SMInv (login3 retry s).1 := by
  have hv := h
  obtain ⟨h1, h2, h3, h4, h5, h6⟩ := h
  exact smInv_login3_aux retry s h2 (smInv_filter_pending s hv) h4
    (smInv_filter_inflight s hv) h5 h6

theorem smInv_keepLoginRetry3 (secs : ℚ) (s : SMState) (h : SMInv s) :
    SMInv (keepLoginRetry3 secs s).1 := by
  obtain ⟨h1, h2, h3, h4, h5, h6⟩ := h
  unfold keepLoginRetry3
  rcases hr : s.reconnecting with _ | t0
  case _ =>
    simp only [hr, Option.isSome_none, Bool.false_eq_true, if_false]
    unfold SMInv
    dsimp only
    refine ⟨?_, ?_, ?_, ?_, ?_, ?_⟩
    case _ =>
      intro t ht
      simp only [Option.some.injEq] at ht
      subst ht
      refine ⟨Nat.lt_succ_self _, secs, ?_⟩
      rw [h2 hr]
    case _ => intro hn; cases hn
    case _ =>
      intro r hrr
      obtain ⟨hlt, b, hb⟩ := h3 r hrr
      exact ⟨Nat.lt_succ_of_lt hlt, b, hb⟩
    case _ => exact h4
    case _ => exact h5
    case _ => exact h6
  case _ =>
    simp only [hr, Option.isSome_some, if_true]
    exact ⟨h1, h2, h3, h4, h5, h6⟩

theorem smInv_endConnection3 (s : SMState) (h : SMInv s) :
    SMInv (endConnection3 s).1 := by
  obtain ⟨h1, h2, h3, h4, h5, h6⟩ := h
  rw [endConnection3_state s]
  exact ⟨h1, h2, h3, h4, rfl, fun _ => rfl⟩

theorem smInv_reconnect3 (a : JsArg) (s : SMState) (h : SMInv s) :
    SMInv (reconnect3 a s).1 := by
  unfold reconnect3
  rcases jsTruthy a
  case _ =>
    simp only [Bool.false_eq_true, if_false]
    exact smInv_keepLoginRetry3 RECONNECT_TIMEOUT _ (smInv_endConnection3 s h)
  case _ =>
    simp only [if_true]
    exact smInv_login3 true _ (smInv_endConnection3 s h)

theorem smInv_timerFire3 (t : Nat) (s : SMState) (h : SMInv s) :
    SMInv (timerFire3 t s).1 := by
  obtain ⟨h1, h2, h3, h4, h5, h6⟩ := h
  unfold timerFire3
  rcases ha : s.pending_timers.any (fun p => p.1 == t)
  case _ =>
    simp only [Bool.false_eq_true, if_false]
    exact ⟨h1, h2, h3, h4, h5, h6⟩
  case _ =>
    simp only [if_true]
    rcases hr : s.reconnecting with _ | t0
    case _ =>
      rw [h2 hr] at ha
      simp [List.any] at ha
    case _ =>
      obtain ⟨-, d, hd⟩ := h1 t0 hr
      have ht0 : t0 = t := by
        rw [hd] at ha
        simp only [List.any_cons, List.any_nil, Bool.or_false, beq_iff_eq] at ha
        exact ha
      subst ht0
      have hfe : s.pending_timers.filter (fun p => p.1 != t0) = [] := by
        rw [hd]
        exact filter_single_self t0 d
      refine smInv_login3_aux true _ ?_ ?_ ?_ ?_ ?_ ?_
      case _ => intro _; exact hfe
      case _ => intro t1 ht1; rw [hfe]; rfl
      case _ => exact h4
      case _ =>
        intro r hrq
        obtain ⟨-, b, hb⟩ := h3 r hrq
        rw [hb]
        exact filter_single_self_req r b
      case _ => exact h5
      case _ => exact h6

theorem smInv_respOk3 (r sid : Nat) (s : SMState) (h : SMInv s) :
    SMInv (respOk3 r sid s).1 := by
  obtain ⟨h1, h2, h3, h4, h5, h6⟩ := h
  unfold respOk3
  rcases ha : s.inflight.any (fun p => p.1 == r)
  case _ =>
    simp only [Bool.false_eq_true, if_false]
    exact ⟨h1, h2, h3, h4, h5, h6⟩
  case _ =>
    simp only [if_true]
    rcases hl : s.login_request with _ | r0
    case _ =>
      rw [h4 hl] at ha
      simp [List.any] at ha
    case _ =>
      obtain ⟨-, b, hb⟩ := h3 r0 hl
      have hr0 : r0 = r := by
        rw [hb] at ha
        simp only [List.any_cons, List.any_nil, Bool.or_false, beq_iff_eq] at ha
        exact ha
      subst hr0
      have hfi : s.inflight.filter (fun p => p.1 != r0) = [] := by
        rw [hb]
        exact filter_single_self_req r0 b
      unfold SMInv
      dsimp only
      refine ⟨h1, h2, ?_, ?_, h5, ?_⟩
      case _ => intro r1 hr1; cases hr1
      case _ => intro _; exact hfi
      case _ => intro hc; cases hc

theorem smInv_respErr3 (r : Nat) (s : SMState) (h : SMInv s) :
    SMInv (respErr3 r s).1 := by
  obtain ⟨h1, h2, h3, h4, h5, h6⟩ := h
  unfold respErr3
  rcases ha : s.inflight.any (fun p => p.1 == r)
  case _ =>
    simp only [Bool.false_eq_true, if_false]
    exact ⟨h1, h2, h3, h4, h5, h6⟩
  case _ =>
    simp only [if_true]
    rcases hl : s.login_request with _ | r0
    case _ =>
      rw [h4 hl] at ha
      simp [List.any] at ha
    case _ =>
      obtain ⟨-, b, hb⟩ := h3 r0 hl
      have hr0 : r0 = r := by
        rw [hb] at ha
        simp only [List.any_cons, List.any_nil, Bool.or_false, beq_iff_eq] at ha
        exact ha
      subst hr0
      have hfi : s.inflight.filter (fun p => p.1 != r0) = [] := by
        rw [hb]
        exact filter_single_self_req r0 b
      have hinv2 : SMInv
          { s with
              login_request := none
              inflight := s.inflight.filter (fun p => p.1 != r0) } := by
        unfold SMInv
        dsimp only
        refine ⟨h1, h2, ?_, ?_, h5, h6⟩
        case _ => intro r1 hr1; cases hr1
        case _ => intro _; exact hfi
      have hflag : ((s.inflight.find? (fun p => p.1 == r0)).map (fun p => p.2)).getD false = b := by
        rw [hb]
        simp [List.find?]
      rw [hflag]
      rcases b
      case _ =>
        simp only [Bool.false_eq_true, if_false]
        exact hinv2
      case _ =>
        simp only [if_true]
        exact smInv_keepLoginRetry3 RECONNECT_TIMEOUT _ hinv2

theorem smInv_logout3 (s : SMState) (h : SMInv s) : SMInv (logout3 s).1 := by
  obtain ⟨h1, h2, h3, h4, h5, h6⟩ := h
  unfold logout3
  dsimp only
  rw [endConnection3_state s]
  dsimp only
  rcases s.session_id with _ | sid
  case _ => exact ⟨h1, h2, h3, h4, rfl, fun _ => rfl⟩
  case _ => exact ⟨h1, h2, h3, h4, rfl, fun _ => rfl⟩

theorem smInv_reboot3 (s : SMState) (h : SMInv s) : SMInv (reboot3 s).1 := by
  have hv := h
  obtain ⟨h1, h2, h3, h4, h5, h6⟩ := h
  unfold reboot3
  rcases s.socket
  case _ =>
    simp only [if_true]
    exact hv
  case _ =>
    simp only [Bool.true_eq_false, if_false]
    rw [endConnection3_state s]
    dsimp only
    refine smInv_keepLoginRetry3 REBOOT_WAIT_TIME _ ⟨h1, h2, h3, h4, rfl, fun _ => rfl⟩

theorem smInv_destroy3 (s : SMState) (h : SMInv s) : SMInv (destroy3 s).1 := by
  have hv := h
  obtain ⟨h1, h2, h3, h4, h5, h6⟩ := h
  unfold destroy3
  dsimp only
  rw [stopOldLogin3_state s h2 (smInv_filter_pending s hv) h4 (smInv_filter_inflight s hv)]
  refine smInv_logout3 _ ?_
  unfold SMInv
  dsimp only
  refine ⟨?_, ?_, ?_, ?_, h5, h6⟩
  case _ => intro t ht; cases ht
  case _ => intro _; rfl
  case _ => intro r hr; cases hr
  case _ => intro _; rfl

theorem smInv_of_reachable (s : SMState) (h : SMReachable s) : SMInv s := by
  induction h with
  | init => exact smInv_init3
  | step s s2 hr hstep ih =>
    cases hstep with
    | loginCall retry s => exact smInv_login3 retry s ih
    | socketDisconnect a s => exact smInv_reconnect3 a s ih
    | timerFires t s => exact smInv_timerFire3 t s ih
    | loginSucceeds r sid s => exact smInv_respOk3 r sid s ih
    | loginFails r s => exact smInv_respErr3 r s ih
    | logoutCall s => exact smInv_logout3 s ih
    | rebootCall s => exact smInv_reboot3 s ih
    | destroyCall s => exact smInv_destroy3 s ih

/-! ## Claim theorems -/

theorem resolveInitTime_num_gt (d t : ℚ) (live : Bool)
    (h : t > d - MIN_BUFFER_TIME) :
    resolveInitTime d live (TimeArg.num t) =
      JsNum.num (max 0 (d - MIN_BUFFER_TIME)) := by
  unfold resolveInitTime jsGt
  dsimp only
  rw [decide_eq_true h, if_pos rfl]
  rcases le_or_lt (d - MIN_BUFFER_TIME) 0 with hle | hlt
  case _ => rw [if_pos hle, max_eq_left hle]
  case _ => rw [if_neg (not_le.mpr hlt), max_eq_right (le_of_lt hlt)]

theorem resolveInitTime_num_le (d t : ℚ) (live : Bool)
    (h : t ≤ d - MIN_BUFFER_TIME) :
    resolveInitTime d live (TimeArg.num t) = JsNum.num t := by
  unfold resolveInitTime jsGt
  dsimp only
  rw [decide_eq_false (not_lt.mpr h)]
  simp

theorem resolveInitTime_empty (d : ℚ) (live : Bool) :
    resolveInitTime d live TimeArg.emptyStr =
      (if live then JsNum.num (max 0 (d - MIN_BUFFER_TIME)) else JsNum.num 0) := by
  unfold resolveInitTime jsGt
  rcases live
  case _ =>
    simp only [Bool.false_eq_true, if_false]
    rcases le_or_lt (d - MIN_BUFFER_TIME) 0 with hle | hlt
    case _ =>
      rcases lt_or_le (d - MIN_BUFFER_TIME) 0 with hlt2 | hle2
      case _ => rw [decide_eq_true hlt2]; simp [hle]
      case _ =>
        have h0 : d - MIN_BUFFER_TIME = 0 := le_antisymm hle hle2
        rw [decide_eq_false (not_lt.mpr hle2)]
        simp
    case _ => rw [decide_eq_false (not_lt.mpr (le_of_lt hlt))]; simp
  case _ =>
    simp only [if_true]
    have hd : d - MIN_BUFFER_TIME < d := by
      unfold MIN_BUFFER_TIME
      linarith
    rw [decide_eq_true hd, if_pos rfl]
    rcases le_or_lt (d - MIN_BUFFER_TIME) 0 with hle | hlt
    case _ => rw [if_pos hle, max_eq_left hle]
    case _ => rw [if_neg (not_le.mpr hlt), max_eq_right (le_of_lt hlt)]

theorem get_new_init_time_eq (st : InstState) (now : ℚ) (id : String) (ch : Channel)
    (t : TimeArg) (hch : alookup id st.channels = some ch) :
    (_get_new_init_time st now id t).1 =
      resolveInitTime ch.duration (is_live st now id) t := by
  unfold _get_new_init_time
  rw [hch]

/-- An empty player_status record. -/
def emptyPlayer : PlayerStatus :=
  { playing := none, time := none, active_channel_id := none, image_primary := none }

/-- A valid, never-live channel of duration 100. -/
def chA : Channel :=
  { duration := 100, last_duration_change := none, cloud_duration := none, hasError := false }

/-- A valid channel with duration 24, shorter than the buffer window. -/
def chShort : Channel :=
  { duration := 24, last_duration_change := none, cloud_duration := none, hasError := false }

/-- A channel flagged with a device-reported error that saw a duration change
at timestamp 0. -/
def chErr : Channel :=
  { duration := 100, last_duration_change := some 0, cloud_duration := none, hasError := true }

/-- A connected instance state with channel "a". -/
def stA : InstState :=
  { channels := [("a", chA)], player_status := emptyPlayer, cur_channel := none,
    cur_time := none, session_id := some "tok", cuepoints := [], image := none,
    image_refresh := false, socket := true, reconnecting := none }

/-- A connected instance state with the short channel "b". -/
def stShort : InstState :=
  { channels := [("b", chShort)], player_status := emptyPlayer, cur_channel := none,
    cur_time := none, session_id := some "tok", cuepoints := [], image := none,
    image_refresh := false, socket := true, reconnecting := none }

/-- A connected instance state with the errored channel "e". -/
def stErr : InstState :=
  { channels := [("e", chErr)], player_status := emptyPlayer, cur_channel := none,
    cur_time := none, session_id := some "tok", cuepoints := [], image := none,
    image_refresh := false, socket := true, reconnecting := none }

/-- Claim C3 as stated is false: with channel duration 24 and requested time
-1 we have -1 >= 24 - 25, so the claim demands the resolved start time
max(0, 24 - 25) = 0, but the source only clamps on the strict inequality
init_time > duration - 25 and returns -1 unchanged. -/
theorem c3_counterexample :
    alookup "b" stShort.channels = some chShort ∧
    ((-1 : ℚ) ≥ chShort.duration - MIN_BUFFER_TIME) ∧
    max 0 (chShort.duration - MIN_BUFFER_TIME) = 0 ∧
    (_get_new_init_time stShort 0 "b" (TimeArg.num (-1))).1 = JsNum.num (-1) ∧
    JsNum.num (-1) ≠ JsNum.num (max 0 (chShort.duration - MIN_BUFFER_TIME)) := by
  have hch : alookup "b" stShort.channels = some chShort := rfl
  have hd : chShort.duration = 24 := rfl
  refine ⟨hch, ?_, ?_, ?_, ?_⟩
  case _ => rw [hd]; unfold MIN_BUFFER_TIME; norm_num
  case _ => rw [hd]; unfold MIN_BUFFER_TIME; norm_num
  case _ =>
    rw [get_new_init_time_eq stShort 0 "b" chShort (TimeArg.num (-1)) hch]
    rw [resolveInitTime_num_le chShort.duration (-1) (is_live stShort 0 "b")
      (by rw [hd]; unfold MIN_BUFFER_TIME; norm_num)]
  case _ =>
    rw [hd]
    unfold MIN_BUFFER_TIME
    norm_num

/-- Claim C3 (amended): for a channel with duration d in the map and a
numeric requested time t, the resolved start time is max(0, d - 25) when
t is strictly greater than d - 25, and t unchanged when t <= d - 25 (the
source clamps only on the strict inequality, so at exactly t = d - 25 the
time passes through even when it is negative). -/
theorem c3_seek_clamp_amended (st : InstState) (now : ℚ) (id : String)
    (ch : Channel) (t : ℚ) (hch : alookup id st.channels = some ch) :
    (t > ch.duration - MIN_BUFFER_TIME →
      (_get_new_init_time st now id (TimeArg.num t)).1 =
        JsNum.num (max 0 (ch.duration - MIN_BUFFER_TIME))) ∧
    (t ≤ ch.duration - MIN_BUFFER_TIME →
      (_get_new_init_time st now id (TimeArg.num t)).1 = JsNum.num t) := by
  constructor
  case _ =>
    intro ht
    rw [get_new_init_time_eq st now id ch (TimeArg.num t) hch]
    exact resolveInitTime_num_gt ch.duration t (is_live st now id) ht
  case _ =>
    intro ht
    rw [get_new_init_time_eq st now id ch (TimeArg.num t) hch]
    exact resolveInitTime_num_le ch.duration t (is_live st now id) ht

/-- Witness for the amended claim C3 at a concrete input: channel "a" of
duration 100, requested times 200 (clamped to 75) and 10 (unchanged). -/
theorem c3_seek_clamp_amended_witness :
    (_get_new_init_time stA 0 "a" (TimeArg.num 200)).1 =
      JsNum.num (max 0 (chA.duration - MIN_BUFFER_TIME)) ∧
    (_get_new_init_time stA 0 "a" (TimeArg.num 10)).1 = JsNum.num 10 := by
  have h200 := c3_seek_clamp_amended stA 0 "a" chA 200 rfl
  have h10 := c3_seek_clamp_amended stA 0 "a" chA 10 rfl
  refine ⟨h200.1 ?_, h10.2 ?_⟩
  case _ =>
    show (200 : ℚ) > chA.duration - MIN_BUFFER_TIME
    unfold chA MIN_BUFFER_TIME
    norm_num
  case _ =>
    show (10 : ℚ) ≤ chA.duration - MIN_BUFFER_TIME
    unfold chA MIN_BUFFER_TIME
    norm_num

/-- Claim C4: for every channel in the map, loading with the empty-string
requested time resolves the start time to 0 when the channel is not live
and to the channel duration pulled back by the end-of-stream clamp,
max(0, duration - 25), when it is live; and the empty string survives
_toSeconds as the empty sentinel, so this resolution is reachable from the
action input path. -/
theorem c4_empty_time_resolution (st : InstState) (now : ℚ) (id : String)
    (ch : Channel) (hch : alookup id st.channels = some ch) :
    ((_get_new_init_time st now id TimeArg.emptyStr).1 =
      if is_live st now id then JsNum.num (max 0 (ch.duration - MIN_BUFFER_TIME))
      else JsNum.num 0) ∧
    toSeconds "" = ParsedTime.empty ∧
    parsedToArg (toSeconds "") = TimeArg.emptyStr := by
  refine ⟨?_, rfl, rfl⟩
  rw [get_new_init_time_eq st now id ch TimeArg.emptyStr hch]
  exact resolveInitTime_empty ch.duration (is_live st now id)

/-- Witness for claim C4 at a concrete input: channel "a" of duration 100
with no last_duration_change is not live, so the empty requested time
resolves to 0. -/
theorem c4_empty_time_resolution_witness :
    ((_get_new_init_time stA 7 "a" TimeArg.emptyStr).1 =
      if is_live stA 7 "a" then JsNum.num (max 0 (chA.duration - MIN_BUFFER_TIME))
      else JsNum.num 0) ∧
    toSeconds "" = ParsedTime.empty ∧
    parsedToArg (toSeconds "") = TimeArg.emptyStr :=
  c4_empty_time_resolution stA 7 "a" chA rfl

/-- Claim C5 as stated is false: is_live also requires the channel to pass
_is_valid_channel, which rejects a channel whose device-reported error
carries a message.  Channel "e" exists in the map and its duration changed
at timestamp 0, within 15 seconds of now = 1000, yet is_live is false. -/
theorem c5_counterexample :
    alookup "e" stErr.channels = some chErr ∧
    chErr.last_duration_change = some 0 ∧
    ((1000 : ℚ) - 0 ≤ 15000) ∧
    is_live stErr 1000 "e" = false := by
  refine ⟨rfl, rfl, by norm_num, ?_⟩
  rfl

/-- Claim C5 (amended): is_live(id) is true iff id is in the channel map,
is not flagged with a device-reported error, and carries a
last_duration_change stamp at most 15 seconds (15000 ms) before now; and a
channel merge stamps last_duration_change = now exactly when the delta
carries a duration different from the stored one. -/
theorem c5_liveness_amended (st : InstState) (now : ℚ) (id : String) :
    (is_live st now id = true ↔
      ∃ ch, alookup id st.channels = some ch ∧ ch.hasError = false ∧
        ∃ l, ch.last_duration_change = some l ∧ now - l ≤ 15000) ∧
    (∀ (ch : Channel) (p : ChannelDelta) (now2 : ℚ),
      (mergeChannel ch p now2).last_duration_change =
        match p.duration with
        | some d => if d = ch.duration then ch.last_duration_change else some now2
        | none => ch.last_duration_change) := by
  constructor
  case _ =>
    unfold is_live _is_valid_channel
    rcases hch : alookup id st.channels with _ | ch
    case _ => simp
    case _ =>
      rcases he : ch.hasError
      case _ =>
        rcases hl : ch.last_duration_change with _ | l
        case _ => simp [hl, he]
        case _ => simp [hl, he]
      case _ => simp [he]
  case _ =>
    intro ch p now2
    unfold mergeChannel
    rcases p.duration with _ | d
    case _ => rfl
    case _ =>
      dsimp only
      rcases eq_or_ne d ch.duration with hd | hd
      case _ => rw [if_pos hd, if_neg (not_not_intro hd)]
      case _ => rw [if_neg hd, if_pos hd]

/-- Claim C6: an id that fails _is_valid_channel (absent from the channel
map or flagged with a device-reported error) makes load_channel return
false and emit nothing. -/
theorem c6_invalid_channel_load (st : InstState) (now : ℚ) (id : String)
    (t : TimeArg) (hv : _is_valid_channel st id = false) :
    (load_channel st now id t).1 = false ∧ (load_channel st now id t).2.1 = [] := by
  unfold load_channel
  rcases st.socket
  case _ => exact ⟨rfl, rfl⟩
  case _ => simp [hv]

/-- Witness for claim C6 at a concrete input: the id "zzz" is not in stA's
channel map, so the load is refused with no emission. -/
theorem c6_invalid_channel_load_witness :
    (load_channel stA 0 "zzz" (TimeArg.num 5)).1 = false ∧
    (load_channel stA 0 "zzz" (TimeArg.num 5)).2.1 = [] :=
  c6_invalid_channel_load stA 0 "zzz" (TimeArg.num 5) rfl

theorem toSeconds_digits (l : List Char) (hne : l ≠ [])
    (h : ∀ c ∈ l, c.isDigit = true) :
    toSeconds (String.mk l) = ParsedTime.num ((digitsToNat l : Nat) : Int) := by
  have hcolon : ':' ∉ l := by
    intro hm
    exact absurd (h ':' hm) (by decide)
  have hnz : String.mk l ≠ "" := by
    intro he
    have hd := congrArg String.data he
    simp only [String.data] at hd
    exact hne hd
  have hdata : (String.mk l).data = l := rfl
  unfold toSeconds
  rw [if_neg hnz]
  simp only [hdata, splitOnColon_no_colon l hcolon, List.reverse_cons,
    List.reverse_nil, List.nil_append, List.headD, List.length, List.getD]
  rw [parseIntJS_digits l hne h]
  simp

/-- Claim C9: the well-formed HH:MM:SS round trip
seconds_to_text(text_to_seconds(s)) = s holds for all in-range components;
a bare nonempty string of decimal digits parses to its base-10 value; and
the empty string parses to the preserved empty sentinel, not zero. -/
theorem c9_time_roundtrip :
    (∀ h m s : Nat, h < 24 → m < 60 → s < 60 →
      toSeconds (hmsString h m s) =
        ParsedTime.num ((h * 3600 + m * 60 + s : Nat) : Int) ∧
      userFriendlyTime ((h * 3600 + m * 60 + s : Nat) : Int) = hmsString h m s) ∧
    (∀ l : List Char, l ≠ [] → (∀ c ∈ l, c.isDigit = true) →
      toSeconds (String.mk l) = ParsedTime.num ((digitsToNat l : Nat) : Int)) ∧
    toSeconds "" = ParsedTime.empty := by
  refine ⟨?_, toSeconds_digits, rfl⟩
  intro h m s hh hm2 hs
  constructor
  case _ =>
    rw [toSeconds_hmsString h m s (by omega) (by omega) (by omega)]
    congr 1
    push_cast
    ring
  case _ => exact userFriendlyTime_hms h m s hh hm2 hs

/-- Witness for claim C9 at concrete inputs: 01:02:03 round-trips through
3723 seconds, and the digit string 42 parses to 42. -/
theorem c9_time_roundtrip_witness :
    (toSeconds (hmsString 1 2 3) = ParsedTime.num ((1 * 3600 + 2 * 60 + 3 : Nat) : Int) ∧
      userFriendlyTime ((1 * 3600 + 2 * 60 + 3 : Nat) : Int) = hmsString 1 2 3) ∧
    toSeconds (String.mk ['4', '2']) =
      ParsedTime.num ((digitsToNat ['4', '2'] : Nat) : Int) :=
  ⟨c9_time_roundtrip.1 1 2 3 (by decide) (by decide) (by decide),
   c9_time_roundtrip.2.1 ['4', '2'] (by decide) (by decide)⟩

/-- A connected instance state actively playing channel "a" at 30 seconds. -/
def stActive : InstState :=
  { channels := [("a", chA)], player_status := emptyPlayer, cur_channel := some "a",
    cur_time := some (JsNum.num 30), session_id := some "tok", cuepoints := [],
    image := none, image_refresh := false, socket := true, reconnecting := none }

/-- A device snapshot carrying no channels. -/
def snapEmpty : Snapshot := { player := emptyPlayer, channels := [] }

theorem device_init_cuepoints (st : InstState) (data : Snapshot) :
    (device_init st data).cuepoints = st.cuepoints := by
  unfold device_init set_live_channel _set_cur_time
  dsimp only
  rcases data.player.active_channel_id <;> rcases data.player.time <;> rfl

theorem reconnect2_cuepoints (b : Bool) (st : InstState) :
    (_reconnect2 b st).cuepoints = st.cuepoints := by
  unfold _reconnect2 login2 _stopOldLogin2 keep_login_retry2 _endConnection
  rcases b
  case _ =>
    simp only [Bool.false_eq_true, if_false]
    split <;> rfl
  case _ => rfl

theorem logout2_cuepoints (st : InstState) :
    ((logout2 st).1).cuepoints = st.cuepoints := by
  unfold logout2 _endConnection
  dsimp only
  rcases st.session_id <;> rfl

theorem destroy2_cuepoints (st : InstState) :
    ((destroy2 st).1).cuepoints = st.cuepoints := by
  unfold destroy2 _stopOldLogin2 logout2 _endConnection
  dsimp only
  rcases st.session_id <;> rfl

theorem channel_updates_cuepoints (st : InstState) (now : ℚ) (id : String)
    (p : ChannelDelta) :
    (_channel_updates st now id p).cuepoints = st.cuepoints := by
  unfold _channel_updates
  rcases alookup id st.channels <;> rfl

theorem player_updates_cuepoints (st : InstState) (args : Option PlayerStatus) :
    (_player_updates st args).cuepoints = st.cuepoints := by
  unfold _player_updates
  rcases args with _ | p
  case _ => rfl
  case _ =>
    dsimp only
    rcases p.time <;> rcases p.active_channel_id <;> rfl

theorem load_channel_cuepoints (st : InstState) (now : ℚ) (id : String) (t : TimeArg) :
    ((load_channel st now id t).2.2).cuepoints = st.cuepoints := by
  unfold load_channel _get_new_init_time _set_cur_time set_live_channel
  rcases st.socket
  case _ => rfl
  case _ =>
    rw [if_neg (by decide : ¬ (true = false))]
    rcases _is_valid_channel st id
    case _ => rfl
    case _ =>
      rw [if_neg (by decide : ¬ (true = false))]
      dsimp only
      rcases alookup id st.channels <;> rfl

theorem reboot2_cuepoints (st : InstState) :
    ((reboot2 st).1).cuepoints = st.cuepoints := by
  unfold reboot2 _endConnection keep_login_retry2
  rcases st.socket
  case _ => rfl
  case _ =>
    rw [if_neg (by decide : ¬ (true = false))]
    dsimp only
    split <;> rfl

/-- Claim C10: the cuepoint store is written only by a successful
set_cuepoint.  The device_init full-state snapshot handler, reconnects,
logout, connection teardown, destroy, channel/player delta merges, loads
and reboot all leave the cuepoints mapping unchanged; set_cuepoint itself
writes only when a channel is currently active; and concretely, a cuepoint
set on channel "a" survives a device_init whose snapshot no longer lists
"a", after which it references a channel absent from the channel map. -/
theorem c10_cuepoint_frame :
    (∀ (st : InstState) (data : Snapshot), (device_init st data).cuepoints = st.cuepoints) ∧
    (∀ (b : Bool) (st : InstState), (_reconnect2 b st).cuepoints = st.cuepoints) ∧
    (∀ st : InstState, ((logout2 st).1).cuepoints = st.cuepoints) ∧
    (∀ st : InstState, (_endConnection st).cuepoints = st.cuepoints) ∧
    (∀ st : InstState, ((destroy2 st).1).cuepoints = st.cuepoints) ∧
    (∀ (st : InstState) (now : ℚ) (id : String) (p : ChannelDelta),
      (_channel_updates st now id p).cuepoints = st.cuepoints) ∧
    (∀ (st : InstState) (args : Option PlayerStatus),
      (_player_updates st args).cuepoints = st.cuepoints) ∧
    (∀ (st : InstState) (now : ℚ) (id : String) (t : TimeArg),
      ((load_channel st now id t).2.2).cuepoints = st.cuepoints) ∧
    (∀ st : InstState, ((reboot2 st).1).cuepoints = st.cuepoints) ∧
    (∀ (st : InstState) (slot : String),
      (set_cuepoint st slot).cuepoints =
        if is_currently_active st then
          ainsert slot
            { channel := st.cur_channel.getD "", time := st.cur_time.getD (JsNum.num 0),
              image := st.image }
            st.cuepoints
        else st.cuepoints) ∧
    (alookup "1" (device_init (set_cuepoint stActive "1") snapEmpty).cuepoints =
       some { channel := "a", time := JsNum.num 30, image := none } ∧
     alookup "a" (device_init (set_cuepoint stActive "1") snapEmpty).channels = none) := by
  refine ⟨device_init_cuepoints, reconnect2_cuepoints, logout2_cuepoints,
    fun st => rfl, destroy2_cuepoints, channel_updates_cuepoints,
    player_updates_cuepoints, load_channel_cuepoints, reboot2_cuepoints, ?_, ?_, ?_⟩
  case _ =>
    intro st slot
    unfold set_cuepoint
    split <;> rfl
  case _ => rfl
  case _ => rfl

/-- Claim C8: reboot refuses (only a logged warning, no state change, no
request) without an active connection; when connected it issues the reboot
PUT, tears the socket down, clears the session token and, with no retry
timer already pending, arms the single retry timer with the long
REBOOT_WAIT_TIME (210 s) instead of the normal RECONNECT_TIMEOUT (10 s). -/
theorem c8_reboot_behavior (st : InstState) :
    (st.socket = false → reboot2 st = (st, [])) ∧
    (st.socket = true →
      (reboot2 st).2 = [HttpReq.putReboot] ∧
      (reboot2 st).1.socket = false ∧
      (reboot2 st).1.session_id = none ∧
      (st.reconnecting = none → (reboot2 st).1.reconnecting = some REBOOT_WAIT_TIME)) ∧
    (REBOOT_WAIT_TIME = 210 ∧ RECONNECT_TIMEOUT = 10 ∧
      REBOOT_WAIT_TIME ≠ RECONNECT_TIMEOUT) := by
  refine ⟨?_, ?_, rfl, rfl, by unfold REBOOT_WAIT_TIME RECONNECT_TIMEOUT; norm_num⟩
  case _ =>
    intro h
    unfold reboot2
    rw [if_pos h]
  case _ =>
    intro h
    unfold reboot2 _endConnection keep_login_retry2
    rw [h]
    rw [if_neg (by decide : ¬ (true = false))]
    dsimp only
    refine ⟨rfl, ?_, ?_, ?_⟩
    case _ => split <;> rfl
    case _ => split <;> rfl
    case _ =>
      intro hr
      rw [hr]
      rfl

/-- Witness for claim C8 at a concrete input: stA is connected with no
pending retry timer, so reboot issues the PUT, closes the socket, clears
the token and arms a 210-second timer. -/
theorem c8_reboot_behavior_witness :
    (reboot2 stA).2 = [HttpReq.putReboot] ∧
    (reboot2 stA).1.socket = false ∧
    (reboot2 stA).1.session_id = none ∧
    (reboot2 stA).1.reconnecting = some REBOOT_WAIT_TIME := by
  have h := (c8_reboot_behavior stA).2.1 rfl
  exact ⟨h.1, h.2.1, h.2.2.1, h.2.2.2 rfl⟩

/-- A part_003 session-manager state holding a token with an open socket,
as after a successful login. -/
def smConn : SMState :=
  { reconnecting := none, login_request := none, pending_timers := [],
    inflight := [], next_id := 5, socket := true, image_refresh := false,
    session_id := some 99 }

/-- Claim C1 fails on the part_003 code it cites: the connect_error handler
is _reconnect.bind(this), so the Error object socket.io passes lands in the
retry_immediately parameter and is truthy.  Evaluated at a concrete
connected state, a connect_error event tears the socket down and issues a
new login POST at once, arms no retry timer, and is indistinguishable from
the server-pushed logout event, where the claim (and the parameter's own
doc comment, and the corrected part_002 signature) demands a
RECONNECT_TIMEOUT delay for connect_error. -/
theorem c1_connect_error_immediate_retry :
    (reconnect3 (connectErrorArg3 "websocket handshake failed") smConn).1.login_request = some 5 ∧
    (reconnect3 (connectErrorArg3 "websocket handshake failed") smConn).1.reconnecting = none ∧
    (reconnect3 (connectErrorArg3 "websocket handshake failed") smConn).1.pending_timers = [] ∧
    (reconnect3 (connectErrorArg3 "websocket handshake failed") smConn).2 =
      [SMEffect.closeSocket, SMEffect.httpPostLogin 5] ∧
    reconnect3 (connectErrorArg3 "websocket handshake failed") smConn =
      reconnect3 logoutArg3 smConn ∧
    (reconnect3 JsArg.undefined smConn).1.reconnecting = some 5 ∧
    (reconnect3 JsArg.undefined smConn).1.pending_timers = [(5, RECONNECT_TIMEOUT)] := by
  exact ⟨rfl, rfl, rfl, rfl, rfl, rfl, rfl⟩

/-- Claim C2: in every reachable part_003 session-manager state there is at
most one pending reconnect timer and at most one unaborted in-flight login
request; a new login leaves no pending timer and exactly its own request in
flight; and the success response of the request that was in flight before
the new login is a complete no-op afterwards (the abort silences it), so a
stale login response never applies after a newer attempt. -/
theorem c2_login_discipline (s : SMState) (hr : SMReachable s) :
    s.pending_timers.length ≤ 1 ∧ s.inflight.length ≤ 1 ∧
    (∀ retry : Bool, ((login3 retry s).1).pending_timers = [] ∧
      ((login3 retry s).1).inflight = [(s.next_id, retry)]) ∧
    (∀ (r : Nat) (retry : Bool) (sid : Nat), s.login_request = some r →
      respOk3 r sid (login3 retry s).1 = ((login3 retry s).1, [])) := by
  have hinv := smInv_of_reachable s hr
  have hv := hinv
  obtain ⟨h1, h2, h3, h4, h5, h6⟩ := hinv
  have hls : ∀ retry : Bool, (login3 retry s).1 =
      { s with
          reconnecting := none
          login_request := some s.next_id
          pending_timers := []
          inflight := [(s.next_id, retry)]
          next_id := s.next_id + 1 } :=
    fun retry => login3_state retry s h2 (smInv_filter_pending s hv) h4
      (smInv_filter_inflight s hv)
  refine ⟨?_, ?_, ?_, ?_⟩
  case _ =>
    rcases hrc : s.reconnecting with _ | t
    case _ => rw [h2 hrc]; simp
    case _ =>
      obtain ⟨-, d, hd⟩ := h1 t hrc
      rw [hd]
      simp
  case _ =>
    rcases hlq : s.login_request with _ | r
    case _ => rw [h4 hlq]; simp
    case _ =>
      obtain ⟨-, b, hb⟩ := h3 r hlq
      rw [hb]
      simp
  case _ =>
    intro retry
    rw [hls retry]
    exact ⟨rfl, rfl⟩
  case _ =>
    intro r retry sid hl
    obtain ⟨hlt, b, hb⟩ := h3 r hl
    rw [hls retry]
    unfold respOk3
    dsimp only
    have hne : (s.next_id == r) = false :=
      beq_eq_false_iff_ne.mpr (Nat.ne_of_gt hlt)
    simp only [List.any_cons, List.any_nil, Bool.or_false, hne,
      Bool.false_eq_true, if_false]

/-- Witness for claim C2: the state after one login call from construction
is reachable; it has no pending timer, a single in-flight request with id
0, and a second login makes the stale success response of request 0 a
no-op. -/
theorem c2_login_discipline_witness :
    (login3 false init3).1.pending_timers.length ≤ 1 ∧
    (login3 false init3).1.inflight.length ≤ 1 ∧
    ((login3 true (login3 false init3).1).1.pending_timers = [] ∧
      (login3 true (login3 false init3).1).1.inflight = [((login3 false init3).1.next_id, true)]) ∧
    respOk3 0 42 (login3 true (login3 false init3).1).1 =
      ((login3 true (login3 false init3).1).1, []) := by
  have hreach : SMReachable (login3 false init3).1 :=
    SMReachable.step _ _ SMReachable.init (SMStep.loginCall false init3)
  have h := c2_login_discipline (login3 false init3).1 hreach
  exact ⟨h.1, h.2.1, h.2.2.1 true, h.2.2.2 0 true 42 rfl⟩

theorem logout3_noop (s : SMState) (hs : s.session_id = none)
    (hk : s.socket = false) (hi : s.image_refresh = false) :
    logout3 s = (s, []) := by
  obtain ⟨rec, lr, pt, infl, nid, sk, ir, sid⟩ := s
  have hs2 : sid = none := hs
  have hk2 : sk = false := hk
  have hi2 : ir = false := hi
  subst hs2
  subst hk2
  subst hi2
  rfl

theorem logout3_fields (s : SMState) :
    (logout3 s).1.session_id = none ∧ (logout3 s).1.socket = false ∧
    (logout3 s).1.image_refresh = false := by
  unfold logout3
  dsimp only
  rw [endConnection3_state s]
  dsimp only
  rcases s.session_id with _ | sid
  case _ => exact ⟨rfl, rfl, rfl⟩
  case _ => exact ⟨rfl, rfl, rfl⟩

theorem logout3_effects_some (s : SMState) (sid : Nat)
    (hs : s.session_id = some sid) :
    (logout3 s).2 =
      (if s.socket then [SMEffect.closeSocket] else []) ++ [SMEffect.httpDeleteSession] := by
  unfold logout3
  dsimp only
  rw [endConnection3_state s]
  dsimp only
  rw [hs]
  dsimp only
  rw [endConnection3_effects s]

/-- Claim C7: on a reachable part_003 state, logout is a no-op (no state
change, no request) when no session token is held; with a token it closes
the socket first and only then issues the fire-and-forget session DELETE,
clearing the token and socket in the very same step, without waiting for
any response; running logout again immediately after is a no-op, and the
DELETE's completion handler (which only logs) never changes state, so the
failure is never retried. -/
theorem c7_logout_contract (s : SMState) (hr : SMReachable s) :
    (s.session_id = none → logout3 s = (s, [])) ∧
    (∀ sid : Nat, s.session_id = some sid →
      (logout3 s).2 =
        (if s.socket then [SMEffect.closeSocket] else []) ++ [SMEffect.httpDeleteSession] ∧
      (logout3 s).1.session_id = none ∧ (logout3 s).1.socket = false) ∧
    logout3 (logout3 s).1 = ((logout3 s).1, []) ∧
    (∀ e : Bool, logoutDeleteResponse3 e (logout3 s).1 = (logout3 s).1) := by
  have hinv := smInv_of_reachable s hr
  obtain ⟨h1, h2, h3, h4, h5, h6⟩ := hinv
  refine ⟨?_, ?_, ?_, fun e => rfl⟩
  case _ => intro hs; exact logout3_noop s hs (h6 hs) h5
  case _ =>
    intro sid hs
    exact ⟨logout3_effects_some s sid hs, (logout3_fields s).1, (logout3_fields s).2.1⟩
  case _ =>
    obtain ⟨f1, f2, f3⟩ := logout3_fields s
    exact logout3_noop _ f1 f2 f3

/-- The part_003 state after construction, one login call and its 200
response: a token is held and the socket is open. -/
def smTokenState : SMState := (respOk3 0 7 (login3 false init3).1).1

/-- Witness for claim C7 at a concrete reachable input: smTokenState holds
token 7 with an open socket, so logout closes the socket, then issues the
DELETE, clears the token at once, and a second logout is a no-op. -/
theorem c7_logout_contract_witness :
    (logout3 smTokenState).2 =
      (if smTokenState.socket then [SMEffect.closeSocket] else []) ++
        [SMEffect.httpDeleteSession] ∧
    (logout3 smTokenState).1.session_id = none ∧
    (logout3 smTokenState).1.socket = false ∧
    logout3 (logout3 smTokenState).1 = ((logout3 smTokenState).1, []) := by
  have hre : SMReachable smTokenState :=
    SMReachable.step _ _
      (SMReachable.step _ _ SMReachable.init (SMStep.loginCall false init3))
      (SMStep.loginSucceeds 0 7 (login3 false init3).1)
  have h := c7_logout_contract smTokenState hre
  obtain ⟨e1, e2, e3⟩ := h.2.1 7 rfl
  exact ⟨e1, e2, e3, h.2.2.1⟩
